import Mathlib

/-!
Verification of the Classy Vision tutorial material.

The repository consists of two tutorial notebooks (`tutorials/classy_model.ipynb`
and a fine-tuning notebook) exercising the Classy Vision framework: attaching
classification heads to pretrained trunks, getting and setting model state,
saving and loading checkpoints, and running a pretraining-then-fine-tuning
workflow through task, trainer and hook abstractions.  The framework classes
themselves (`ClassyModel`, `FullyConnectedHead`, `CheckpointHook`,
`FineTuningTask`, `LocalTrainer`, `build_model`) belong to the Classy Vision
project but are not part of the given files, so they are modelled here from the
specification and from the behavior the notebooks narrate and assert
(output shapes, the shape-mismatch exception, the logged phase order, the
checkpoint file path).  Tensors are tracked by their shapes; parameter tensors
carry an abstract integer standing for the numeric data, since the numeric
runtime (autograd, kernels) is out of scope.
-/

/-- Modelled from the spec: a parameter entry of a model's serialized state
(`classy_vision` state dictionaries map parameter names to tensors).  The
tensor is abstracted to its shape plus a single integer standing for the
numeric data, which the wrapped tensor runtime owns. -/
structure Param where
  shape : List Nat
  value : Int
deriving DecidableEq

/-- Modelled from the spec: the state of a `ClassyModel`, split as the
framework does into the trunk parameters and the head parameters. -/
structure ModelState where
  trunkParams : List (String × Param)
  headParams : List (String × Param)
deriving DecidableEq

/-- Modelled from the spec: the trunk is the backbone feature-extraction
network onto which heads are attached.  The notebooks observe, for each named
internal module, the dimension of the features that module outputs, and the
dimension of the trunk's own final output. -/
structure Trunk where
  moduleDims : List (String × Nat)
  outputDim : Nat
deriving DecidableEq

/-- Modelled from the spec: `classy_vision.heads.FullyConnectedHead`, missing
from the given files; the notebooks construct it from a unique id, a number of
output classes and the expected input dimension `in_plane`. -/
structure FullyConnectedHead where
  unique_id : String
  num_classes : Nat
  in_plane : Nat
deriving DecidableEq

/-- Modelled from the spec: a plain PyTorch module as the notebooks observe
it — a trunk architecture together with its parameters. -/
structure TorchModule where
  trunk : Trunk
  params : List (String × Param)
deriving DecidableEq

/-- Modelled from the spec: evaluating a plain module on a batch of `b`
images yields a tensor of shape `b × outputDim` (the notebook asserts shape
`(10, 1000)` for resnet18 on a 10-image batch). -/
def TorchModule.forward (m : TorchModule) (b : Nat) : List Nat :=
  [b, m.trunk.outputDim]

/-- Modelled from the spec: `classy_vision.models.ClassyModel`, missing from
the given files: a wrapped trunk, the heads attached at named internal
modules, and the model state reachable through `get_classy_state` and
`set_classy_state`. -/
structure ClassyModel where
  trunk : Trunk
  heads : List (String × List FullyConnectedHead)
  state : ModelState
deriving DecidableEq

/-- Modelled from the spec: `ClassyModel.from_model` converts any PyTorch
module to a `ClassyModel` in one call; no heads are attached yet and the
module's parameters become the trunk part of the state. -/
def ClassyModel.from_model (m : TorchModule) : ClassyModel :=
  { trunk := m.trunk
    heads := []
    state := { trunkParams := m.params, headParams := [] } }

/-- Modelled from the spec: the freshly initialized parameters of a fully
connected head — one weight tensor of shape `num_classes × in_plane`.  The
integer 0 stands for the fresh random initialization, whose numeric content
the tensor runtime owns. -/
def FullyConnectedHead.initParams (h : FullyConnectedHead) : List (String × Param) :=
  [(h.unique_id ++ ".fc.weight", { shape := [h.num_classes, h.in_plane], value := 0 })]

/-- Modelled from the spec: `ClassyModel.set_heads`, missing from the given
files, installs the given mapping from module names to heads, removing any
previously attached heads; the head part of the state is replaced by the
fresh parameters of the newly attached heads. -/
def ClassyModel.set_heads (m : ClassyModel)
    (hs : List (String × List FullyConnectedHead)) : ClassyModel :=
  { m with
    heads := hs
    state := { m.state with
               headParams := hs.flatMap (fun p => p.2.flatMap FullyConnectedHead.initParams) } }

/-- Modelled from the spec: `get_classy_state` fetches the state of the
model, a drop-in replacement for `torch.nn.Module.state_dict`. -/
def ClassyModel.get_classy_state (m : ClassyModel) : ModelState :=
  m.state

/-- Modelled from the spec: `set_classy_state` sets the state of the model,
a drop-in replacement for `torch.nn.Module.load_state_dict`. -/
def ClassyModel.set_classy_state (m : ClassyModel) (s : ModelState) : ClassyModel :=
  { m with state := s }

/-- Modelled from the spec: evaluating a fully connected head on features of
shape `b × d`.  The underlying matrix multiply succeeds exactly when `d`
equals the head's `in_plane`, producing logits of shape `b × num_classes`;
otherwise the tensor runtime raises the size-mismatch exception the notebook
prints (`size mismatch, m1: [10 x 512], m2: [1234 x 10] ...`). -/
def FullyConnectedHead.forward (h : FullyConnectedHead) (input : List Nat) :
    Except String (List Nat) :=
  match input with
  | [b, d] =>
      if d = h.in_plane then
        Except.ok [b, h.num_classes]
      else
        Except.error ("size mismatch, m1: [" ++ toString b ++ " x " ++ toString d ++
          "], m2: [" ++ toString h.in_plane ++ " x " ++ toString h.num_classes ++ "]")
  | _ => Except.error "fully connected head expects a 2d input"

/-- Modelled from the spec: evaluating a `ClassyModel` on a batch of `b`
images.  With no heads attached the wrapped trunk runs unchanged.  With one
head attached at a named internal module, the features produced at that
module (whose dimension the trunk records for that name) are fed to the
head, whose class count gives the final logits dimension.  Attaching several
heads is narrated as an advanced concept the tutorials do not cover, so it is
left unmodelled. -/
def ClassyModel.forward (m : ClassyModel) (b : Nat) : Except String (List Nat) :=
  match m.heads with
  | [] => Except.ok [b, m.trunk.outputDim]
  | [(blockName, [h])] =>
      match List.lookup blockName m.trunk.moduleDims with
      | some d => h.forward [b, d]
      | none => Except.error ("module " ++ blockName ++ " not found")
  | _ => Except.error "multiple heads are not modelled"

/-- Wrapping a module and attaching a single head at a named module, the
combination both tutorials exercise. -/
def attachOneHead (t : Trunk) (ps : List (String × Param)) (nm : String)
    (h : FullyConnectedHead) : ClassyModel :=
  (ClassyModel.from_model { trunk := t, params := ps }).set_heads [(nm, [h])]

/-- The torchvision resnet18 module as displayed in the notebook: its final
trunk layer `layer4` outputs 512-dimensional features and its fc layer gives
a 1000-dimensional output.  Only the data the notebook observes is kept. -/
def resnet18 : TorchModule :=
  { trunk := { moduleDims := [("layer4", 512)], outputDim := 1000 }
    params := [("fc.weight", { shape := [1000, 512], value := 0 })] }

/-- The resnet50 trunk as the notebooks describe it: module `block2-2`
outputs 1024-dimensional features, the final block `block3-2` outputs
2048-dimensional features, and the default head gives a 1000-dimensional
output. -/
def resnet50trunk : Trunk :=
  { moduleDims := [("block2-2", 1024), ("block3-2", 2048)], outputDim := 1000 }

/-- Modelled from the spec: a checkpoint is a serialized snapshot of model
and optimizer state persisted to durable storage for later resumption or
fine-tuning.  The optimizer state is abstracted to the number of optimizer
updates taken, since its numeric content lives in the wrapped runtime. -/
structure Checkpoint where
  modelState : ModelState
  optimState : Nat
deriving DecidableEq

/-- The durable storage the checkpoints are persisted to, as a mapping from
file paths to their serialized contents. -/
abbrev FileSystem := List (String × Checkpoint)

/-- Modelled from the spec: the on-disk checkpoint file referenced by path is
named `checkpoint.torch` inside the checkpoint directory (the fine-tuning
notebook logs loading from `<dir>/checkpoint.torch`). -/
def checkpointFile (dir : String) : String :=
  dir ++ "/checkpoint.torch"

/-- Modelled from the spec: `classy_vision.hooks.CheckpointHook`, missing
from the given files; it is constructed from the directory the checkpoints
are saved into. -/
structure CheckpointHook where
  checkpoint_folder : String
deriving DecidableEq

/-- Modelled from the spec: the checkpoint hook persists the given snapshot
to `<checkpoint_folder>/checkpoint.torch`; a later save to the same
directory overwrites the earlier file. -/
def CheckpointHook.save (h : CheckpointHook) (c : Checkpoint) (fs : FileSystem) :
    FileSystem :=
  (checkpointFile h.checkpoint_folder, c) :: fs

/-- Modelled from the spec: reading the checkpoint file back from the
directory it was saved into; `none` when no checkpoint was ever saved
there. -/
def loadCheckpoint (dir : String) (fs : FileSystem) : Option Checkpoint :=
  List.lookup (checkpointFile dir) fs

/-- Modelled from the spec: loading a list of saved parameters into a module
(`load_state_dict` behavior): every current parameter name must be present
among the saved ones with the same tensor shape, in which case the saved
entry replaces the current one; a shape disagreement or a missing name makes
the load fail. -/
def loadParams (saved : List (String × Param)) :
    List (String × Param) → Except String (List (String × Param))
  | [] => Except.ok []
  | (n, p) :: rest =>
      match List.lookup n saved with
      | some q =>
          if q.shape = p.shape then do
            let r ← loadParams saved rest
            Except.ok ((n, q) :: r)
          else
            Except.error ("size mismatch for parameter " ++ n)
      | none => Except.error ("missing parameter " ++ n)

/-- Modelled from the spec: `classy_vision.tasks.ClassificationTask`, missing
from the given files, restricted to the data the notebooks set on it: the
number of epochs, the model, the directory of its `CheckpointHook`, and the
phase types of the datasets registered through `set_dataset` (the notebooks
register a `train` and a `test` dataset). -/
structure ClassificationTask where
  num_epochs : Nat
  model : ClassyModel
  checkpoint_dir : String
  phase_types : List String
deriving DecidableEq

/-- Modelled from the spec: `classy_vision.tasks.FineTuningTask`, missing
from the given files; on top of the classification-task data it records
whether the trunk is frozen, whether the heads are reset, and the pretrained
checkpoint loaded through `set_pretrained_checkpoint`. -/
structure FineTuningTask where
  num_epochs : Nat
  model : ClassyModel
  checkpoint_dir : String
  phase_types : List String
  freeze_trunk : Bool
  reset_heads : Bool
  pretrained_checkpoint : Option Checkpoint
deriving DecidableEq

/-- Modelled from the spec: `set_freeze_trunk` chooses whether the trunk
weights are frozen during fine-tuning. -/
def FineTuningTask.set_freeze_trunk (t : FineTuningTask) (b : Bool) : FineTuningTask :=
  { t with freeze_trunk := b }

/-- Modelled from the spec: `set_reset_heads` chooses whether the heads keep
their fresh initialization instead of being loaded from the pretrained
checkpoint. -/
def FineTuningTask.set_reset_heads (t : FineTuningTask) (b : Bool) : FineTuningTask :=
  { t with reset_heads := b }

/-- Modelled from the spec: `set_pretrained_checkpoint(dir)` loads the file
`<dir>/checkpoint.torch` from durable storage and records it as the
checkpoint the fine-tuning starts from. -/
def FineTuningTask.set_pretrained_checkpoint (t : FineTuningTask) (dir : String)
    (fs : FileSystem) : FineTuningTask :=
  { t with pretrained_checkpoint := loadCheckpoint dir fs }

/-- Modelled from the spec: when training starts, a fine-tuning task loads
the pretrained model state into its model.  The trunk parameters are always
loaded from the checkpoint; with `reset_heads` set the head parameters keep
their fresh initialization and the checkpointed head state is ignored,
otherwise the head parameters are loaded from the checkpoint as well. -/
def FineTuningTask.loadPretrainedState (t : FineTuningTask) (m : ClassyModel) :
    Except String ClassyModel :=
  match t.pretrained_checkpoint with
  | none => Except.ok m
  | some c => do
      let tp ← loadParams c.modelState.trunkParams m.state.trunkParams
      if t.reset_heads then
        Except.ok { m with state := { trunkParams := tp, headParams := m.state.headParams } }
      else do
        let hp ← loadParams c.modelState.headParams m.state.headParams
        Except.ok { m with state := { trunkParams := tp, headParams := hp } }

/-- Modelled from the spec: one optimizer update over a list of parameters.
The per-parameter update `g` abstracts the gradient computation, which the
wrapped tensor runtime owns. -/
def optimizerStep (g : String → Param → Param) (ps : List (String × Param)) :
    List (String × Param) :=
  ps.map (fun p => (p.1, g p.1 p.2))

/-- Modelled from the spec: the parameter updates of one train phase.  The
optimizer updates the head parameters, and the trunk parameters as well
unless the trunk is frozen. -/
def trainPhaseUpdate (freeze : Bool) (g : String → Param → Param) (s : ModelState) :
    ModelState :=
  { trunkParams := if freeze then s.trunkParams else optimizerStep g s.trunkParams
    headParams := optimizerStep g s.headParams }

/-- The externally observable events of a training run, in the order the
trainer emits them (mirroring the log lines the notebook records). -/
inductive TrainEvent
  | trainPhase (epoch : Nat)
  | checkpointSave (epoch : Nat)
  | testPhase (epoch : Nat)
deriving DecidableEq

/-- The state a training run threads through its phases: the model being
trained, the abstract optimizer state, the durable storage, and the events
emitted so far. -/
structure TrainState where
  model : ClassyModel
  optimState : Nat
  fs : FileSystem
  events : List TrainEvent
deriving DecidableEq

/-- Modelled from the spec: one phase of a training run.  A `train` phase
updates the parameters with the optimizer and then the checkpoint hook saves
the snapshot of model and optimizer state; any other phase (the `test`
phase) only evaluates and changes no state.  This mirrors the logged order
`train phase i` / `Saving checkpoint` / `test phase i`. -/
def runPhase (freeze : Bool) (g : String → Param → Param) (dir : String)
    (epoch : Nat) (phaseType : String) (st : TrainState) : TrainState :=
  if phaseType = "train" then
    let s := trainPhaseUpdate freeze g st.model.state
    let o := st.optimState + 1
    { model := { st.model with state := s }
      optimState := o
      fs := CheckpointHook.save { checkpoint_folder := dir } { modelState := s, optimState := o } st.fs
      events := st.events ++ [TrainEvent.trainPhase epoch, TrainEvent.checkpointSave epoch] }
  else
    { st with events := st.events ++ [TrainEvent.testPhase epoch] }

/-- Modelled from the spec: one epoch runs one phase per registered dataset,
in registration order. -/
def runEpoch (freeze : Bool) (g : String → Param → Param) (dir : String)
    (pts : List String) (epoch : Nat) (st : TrainState) : TrainState :=
  pts.foldl (fun s pt => runPhase freeze g dir epoch pt s) st

/-- Modelled from the spec: the epochs of a training run, executed strictly
sequentially; `n` epochs remain and `e` is the index of the next one. -/
def runEpochsFrom (freeze : Bool) (g : String → Param → Param) (dir : String)
    (pts : List String) : Nat → Nat → TrainState → TrainState
  | 0, _, st => st
  | Nat.succ n, e, st => runEpochsFrom freeze g dir pts n (e + 1) (runEpoch freeze g dir pts e st)

/-- Modelled from the spec: `LocalTrainer.train` on a classification task
runs its epochs sequentially on the local machine, starting from the task's
model and the given durable storage. -/
def LocalTrainer.train (task : ClassificationTask) (g : String → Param → Param)
    (fs0 : FileSystem) : TrainState :=
  runEpochsFrom false g task.checkpoint_dir task.phase_types task.num_epochs 0
    { model := task.model, optimState := 0, fs := fs0, events := [] }

/-- Modelled from the spec: `LocalTrainer.train` on a fine-tuning task first
loads the pretrained model state (logged as `Model state load successful`)
and then runs the epochs, with the trunk frozen when the task says so. -/
def LocalTrainer.trainFineTuning (task : FineTuningTask) (g : String → Param → Param)
    (fs0 : FileSystem) : Except String TrainState := do
  let m ← task.loadPretrainedState task.model
  Except.ok (runEpochsFrom task.freeze_trunk g task.checkpoint_dir task.phase_types
    task.num_epochs 0 { model := m, optimState := 0, fs := fs0, events := [] })

/-- A value of a configuration dictionary: the notebooks only use string and
integer values at the top level. -/
inductive ConfigVal
  | str (s : String)
  | num (n : Nat)
deriving DecidableEq

/-- A configuration dictionary, as passed to `build_model` and
`from_config`. -/
abbrev ModelConfig := List (String × ConfigVal)

/-- The custom model of `tutorials/classy_model.ipynb`: an average pool over
the pixels followed by a fully connected layer with `num_classes` outputs.
Only the construction data is modelled; the numeric layers live in the
wrapped runtime. -/
structure MyModel where
  num_classes : Nat
deriving DecidableEq

/-- From `tutorials/classy_model.ipynb`: `MyModel.from_config` reads the
`num_classes` key of the configuration dictionary and constructs the
instance with it. -/
def MyModel.from_config (config : ModelConfig) : Option MyModel :=
  match List.lookup "num_classes" config with
  | some (ConfigVal.num n) => some { num_classes := n }
  | _ => none

/-- Modelled from the spec: `register_model(name)` records a class (its
`from_config` constructor) in the model registry under the given name. -/
def register_model (name : String) (fromConfig : ModelConfig → Option α)
    (registry : List (String × (ModelConfig → Option α))) :
    List (String × (ModelConfig → Option α)) :=
  (name, fromConfig) :: registry

/-- Modelled from the spec: `build_model(config)`, missing from the given
files, looks up the class registered under `config["name"]` and passes the
configuration dictionary through verbatim to that class's `from_config`,
validating or transforming no key itself. -/
def build_model (registry : List (String × (ModelConfig → Option α)))
    (config : ModelConfig) : Option α :=
  match List.lookup "name" config with
  | some (ConfigVal.str n) =>
      match List.lookup n registry with
      | some fromConfig => fromConfig config
      | none => none
  | _ => none

/-- The configuration the notebook builds `my_model` from. -/
def myModelConfig : ModelConfig :=
  [("name", ConfigVal.str "my_model"), ("num_classes", ConfigVal.num 3)]

/-- The resnet50 classy model of the fine-tuning notebook, with the
1000-class pretraining head attached at `block3-2`.  A single representative
trunk parameter stands for the backbone weights. -/
def pretrainModel : ClassyModel :=
  (ClassyModel.from_model
    { trunk := resnet50trunk
      params := [("conv1.weight", { shape := [64, 3, 7, 7], value := 1 })] }).set_heads
    [("block3-2", [{ unique_id := "default_head", num_classes := 1000, in_plane := 2048 }])]

/-- The pretraining task of the fine-tuning notebook: 4 epochs, a train and
a test dataset, checkpoints saved to the pretraining directory. -/
def pretrainTask : ClassificationTask :=
  { num_epochs := 4
    model := pretrainModel
    checkpoint_dir := "/tmp/checkpoint_pretrain"
    phase_types := ["train", "test"] }

/-- A fresh resnet50 classy model with the 2-class fine-tuning head attached
at `block3-2`, as the fine-tuning notebook builds it. -/
def fineTuningModel : ClassyModel :=
  (ClassyModel.from_model
    { trunk := resnet50trunk
      params := [("conv1.weight", { shape := [64, 3, 7, 7], value := 1 })] }).set_heads
    [("block3-2", [{ unique_id := "default_head", num_classes := 2, in_plane := 2048 }])]

/-- A checkpoint as the pretraining run would save it: trunk weights from
the pretraining, head weights of the 1000-class pretraining head. -/
def pretrainCheckpoint : Checkpoint :=
  { modelState :=
      { trunkParams := [("conv1.weight", { shape := [64, 3, 7, 7], value := 5 })]
        headParams := [("default_head.fc.weight", { shape := [1000, 2048], value := 7 })] }
    optimState := 4 }

/-- The fine-tuning task of the fine-tuning notebook: one epoch, frozen
trunk, reset heads, starting from the pretraining checkpoint. -/
def fineTuningTask : FineTuningTask :=
  ({ num_epochs := 1
     model := fineTuningModel
     checkpoint_dir := "/tmp/checkpoint_finetune"
     phase_types := ["train", "test"]
     freeze_trunk := false
     reset_heads := false
     pretrained_checkpoint := some pretrainCheckpoint
   : FineTuningTask }.set_freeze_trunk true).set_reset_heads true

/-- A unit gradient update standing for one concrete optimizer behavior in
the witnesses: every parameter value is increased by one. -/
def unitStep : String → Param → Param :=
  fun _ p => { p with value := p.value + 1 }

/-- The checkpoint file of the given directory holds exactly the snapshot of
the current model and optimizer state. -/
def checkpointCurrent (dir : String) (st : TrainState) : Prop :=
  loadCheckpoint dir st.fs
    = some { modelState := st.model.state, optimState := st.optimState }

/-- The events one epoch is specified to emit, in order: the train phase,
the checkpoint save, then the test phase. -/
def epochEvents (e : Nat) : List TrainEvent :=
  [TrainEvent.trainPhase e, TrainEvent.checkpointSave e, TrainEvent.testPhase e]

/-- The second model differs from the first at most in its head parameters:
the trunk, the attached heads and the trunk parameters all agree. -/
def onlyHeadsDiffer (m0 m : ClassyModel) : Prop :=
  m.trunk = m0.trunk ∧ m.heads = m0.heads ∧ m.state.trunkParams = m0.state.trunkParams

/-- The model the fine-tuning run starts from: the fresh 2-class fine-tuning
model with its trunk weights replaced by the checkpointed ones. -/
def fineTuningStartModel : ClassyModel :=
  { fineTuningModel with
    state := { trunkParams := [("conv1.weight", { shape := [64, 3, 7, 7], value := 5 })]
               headParams := fineTuningModel.state.headParams } }

/-- Claim C1: with a head attached at a named module, evaluation raises a
size-mismatch exception exactly when the head's `in_plane` disagrees with
the output dimension the trunk records for that module, and succeeds when
they agree. -/
theorem head_in_plane_forward (t : Trunk) (ps : List (String × Param)) (nm : String)
    (h : FullyConnectedHead) (d b : Nat)
    (hd : List.lookup nm t.moduleDims = some d) :
    (h.in_plane ≠ d → ∃ msg, (attachOneHead t ps nm h).forward b = Except.error msg) ∧
    (h.in_plane = d → (attachOneHead t ps nm h).forward b = Except.ok [b, h.num_classes]) := by
  constructor
  · intro hne
    have herr : (attachOneHead t ps nm h).forward b =
        Except.error ("size mismatch, m1: [" ++ toString b ++ " x " ++ toString d ++
          "], m2: [" ++ toString h.in_plane ++ " x " ++ toString h.num_classes ++ "]") := by
      simp only [attachOneHead, ClassyModel.forward, ClassyModel.set_heads,
        ClassyModel.from_model, hd, FullyConnectedHead.forward]
      rw [if_neg (fun hdh => hne hdh.symm)]
    exact ⟨_, herr⟩
  · intro heq
    simp only [attachOneHead, ClassyModel.forward, ClassyModel.set_heads,
      ClassyModel.from_model, hd, FullyConnectedHead.forward]
    rw [if_pos heq.symm]

/-- Witness for C1 at the notebook's concrete input: on the wrapped resnet18
(whose `layer4` outputs 512-dimensional features), a head with
`in_plane = 1234` makes the forward call raise and a head with
`in_plane = 512` makes it return logits of shape `(10, 10)`. -/
theorem head_in_plane_forward_witness :
    (∃ msg, (attachOneHead resnet18.trunk resnet18.params "layer4"
        { unique_id := "default", num_classes := 10, in_plane := 1234 }).forward 10
      = Except.error msg) ∧
    (attachOneHead resnet18.trunk resnet18.params "layer4"
        { unique_id := "default", num_classes := 10, in_plane := 512 }).forward 10
      = Except.ok [10, 10] := by
  constructor
  · exact (head_in_plane_forward resnet18.trunk resnet18.params "layer4"
      { unique_id := "default", num_classes := 10, in_plane := 1234 } 512 10 rfl).1 (by decide)
  · exact (head_in_plane_forward resnet18.trunk resnet18.params "layer4"
      { unique_id := "default", num_classes := 10, in_plane := 512 } 512 10 rfl).2 rfl

/-- Claim C2: with a fully connected head of `num_classes = k` attached at a
named module whose output dimension matches the head's `in_plane`,
evaluating the model on a batch of `b` inputs returns a tensor of shape
`(b, k)`. -/
theorem set_heads_output_shape (t : Trunk) (ps : List (String × Param)) (nm uid : String)
    (k d b : Nat) (hd : List.lookup nm t.moduleDims = some d) :
    (attachOneHead t ps nm { unique_id := uid, num_classes := k, in_plane := d }).forward b
      = Except.ok [b, k] := by
  simp [attachOneHead, ClassyModel.forward, ClassyModel.set_heads,
    ClassyModel.from_model, hd, FullyConnectedHead.forward]

/-- Witness for C2 at the notebook's concrete input: a 100-class head at
`block3-2` of the resnet50 trunk gives output shape `(10, 100)` on a
10-image batch. -/
theorem set_heads_output_shape_witness :
    (attachOneHead resnet50trunk [] "block3-2"
        { unique_id := "default", num_classes := 100, in_plane := 2048 }).forward 10
      = Except.ok [10, 100] :=
  set_heads_output_shape resnet50trunk [] "block3-2" "default" 100 2048 10 rfl

/-- Claim C4: for every `ClassyModel`, setting back the fetched state is an
identity on the model: `set_classy_state (get_classy_state ())` succeeds and
leaves the model unchanged. -/
theorem classy_state_round_trip (m : ClassyModel) :
    m.set_classy_state m.get_classy_state = m :=
  rfl

/-- Claim C6: a second `set_heads` call removes the previously attached
heads and installs the new ones, so the output shape is determined solely by
the newly attached head; concretely, attaching a 100-class head and then a
10-class head at `block3-2` gives output shape `(10, 10)` on a 10-image
batch. -/
theorem set_heads_replaces_previous :
    (∀ (m : ClassyModel) (hs1 hs2 : List (String × List FullyConnectedHead)),
      (m.set_heads hs1).set_heads hs2 = m.set_heads hs2) ∧
    (((ClassyModel.from_model { trunk := resnet50trunk, params := [] }).set_heads
        [("block3-2", [{ unique_id := "default", num_classes := 100, in_plane := 2048 }])]).set_heads
        [("block3-2", [{ unique_id := "default", num_classes := 10, in_plane := 2048 }])]).forward 10
      = Except.ok [10, 10] := by
  refine ⟨fun m hs1 hs2 => rfl, ?_⟩
  rfl

/-- Claim C7: `build_model(config)` looks the class registered under
`config["name"]` up in the registry and passes the configuration dictionary
through verbatim to that class's `from_config`; in particular building
`{"name": "my_model", "num_classes": 3}` against a registry holding
`my_model` yields the instance constructed with `num_classes = 3`. -/
theorem build_model_passthrough {α : Type} (registry : List (String × (ModelConfig → Option α)))
    (c : ModelConfig) (n : String) (f : ModelConfig → Option α)
    (hn : List.lookup "name" c = some (ConfigVal.str n))
    (hf : List.lookup n registry = some f) :
    build_model registry c = f c ∧
    build_model (register_model "my_model" MyModel.from_config []) myModelConfig
      = some { num_classes := 3 } := by
  constructor
  · simp only [build_model, hn, hf]
  · rfl

/-- Witness for C7 at the notebook's concrete input: the registry built by
`register_model "my_model"` makes `build_model` hand `myModelConfig` to
`MyModel.from_config` verbatim, producing the 3-class instance. -/
theorem build_model_passthrough_witness :
    build_model (register_model "my_model" MyModel.from_config []) myModelConfig
      = MyModel.from_config myModelConfig ∧
    build_model (register_model "my_model" MyModel.from_config []) myModelConfig
      = some { num_classes := 3 } :=
  build_model_passthrough (register_model "my_model" MyModel.from_config [])
    myModelConfig "my_model" MyModel.from_config rfl rfl

/-- Claim C9: `ClassyModel.from_model` preserves forward behavior: before
any heads are attached, the wrapped model evaluates exactly as the original
module on every input; concretely, wrapping resnet18 gives output shape
`(10, 1000)` on a 10-image batch, the same as the unwrapped model. -/
theorem from_model_preserves_forward :
    (∀ (m : TorchModule) (b : Nat),
      (ClassyModel.from_model m).forward b = Except.ok (m.forward b)) ∧
    (ClassyModel.from_model resnet18).forward 10 = Except.ok [10, 1000] ∧
    resnet18.forward 10 = [10, 1000] :=
  ⟨fun _ _ => rfl, rfl, rfl⟩

theorem checkpointCurrent_runEpoch (freeze : Bool) (g : String → Param → Param)
    (dir : String) (e : Nat) (st : TrainState) :
    checkpointCurrent dir (runEpoch freeze g dir ["train", "test"] e st) := by
  show checkpointCurrent dir (runPhase freeze g dir e "test" (runPhase freeze g dir e "train" st))
  simp [checkpointCurrent, runPhase, loadCheckpoint, CheckpointHook.save]

theorem checkpointCurrent_runEpochsFrom (freeze : Bool) (g : String → Param → Param)
    (dir : String) :
    ∀ (n e : Nat) (st : TrainState), checkpointCurrent dir st →
      checkpointCurrent dir (runEpochsFrom freeze g dir ["train", "test"] n e st)
  | 0, _, _, h => h
  | Nat.succ n, e, st, _ =>
      checkpointCurrent_runEpochsFrom freeze g dir n (e + 1)
        (runEpoch freeze g dir ["train", "test"] e st)
        (checkpointCurrent_runEpoch freeze g dir e st)

/-- Claim C3: the checkpoint hook persists the model and optimizer state to
`<dir>/checkpoint.torch` during training, and `set_pretrained_checkpoint(dir)`
later loads exactly that file, so the fine-tuning task starts from the model
state the pretraining run saved. -/
theorem checkpoint_save_then_load (task : ClassificationTask) (g : String → Param → Param)
    (fs0 : FileSystem) (ft : FineTuningTask)
    (hn : 0 < task.num_epochs) (hp : task.phase_types = ["train", "test"]) :
    (ft.set_pretrained_checkpoint task.checkpoint_dir
        (LocalTrainer.train task g fs0).fs).pretrained_checkpoint
      = some { modelState := (LocalTrainer.train task g fs0).model.state
               optimState := (LocalTrainer.train task g fs0).optimState } := by
  have hcur : checkpointCurrent task.checkpoint_dir (LocalTrainer.train task g fs0) := by
    unfold LocalTrainer.train
    rw [hp]
    rcases Nat.exists_eq_succ_of_ne_zero (Nat.pos_iff_ne_zero.mp hn) with ⟨m, hm⟩
    rw [hm, runEpochsFrom]
    exact checkpointCurrent_runEpochsFrom false g task.checkpoint_dir m 1 _
      (checkpointCurrent_runEpoch false g task.checkpoint_dir 0 _)
  simpa [FineTuningTask.set_pretrained_checkpoint, checkpointCurrent] using hcur

/-- Witness for C3 at the notebook's concrete setup: training the 4-epoch
pretraining task and pointing the fine-tuning task at its checkpoint
directory loads exactly the checkpoint holding the final model and optimizer
state of the pretraining run. -/
theorem checkpoint_save_then_load_witness :
    (fineTuningTask.set_pretrained_checkpoint pretrainTask.checkpoint_dir
        (LocalTrainer.train pretrainTask unitStep []).fs).pretrained_checkpoint
      = some { modelState := (LocalTrainer.train pretrainTask unitStep []).model.state
               optimState := (LocalTrainer.train pretrainTask unitStep []).optimState } :=
  checkpoint_save_then_load pretrainTask unitStep [] fineTuningTask (by decide) rfl

theorem runEpoch_events (freeze : Bool) (g : String → Param → Param)
    (dir : String) (e : Nat) (st : TrainState) :
    (runEpoch freeze g dir ["train", "test"] e st).events
      = st.events ++ epochEvents e := by
  show (runPhase freeze g dir e "test" (runPhase freeze g dir e "train" st)).events
      = st.events ++ epochEvents e
  simp [runPhase, epochEvents]

theorem runEpochsFrom_events (freeze : Bool) (g : String → Param → Param) (dir : String) :
    ∀ (n e : Nat) (st : TrainState),
      (runEpochsFrom freeze g dir ["train", "test"] n e st).events
        = st.events ++ (List.range n).flatMap (fun i => epochEvents (e + i)) := by
  intro n
  induction n with
  | zero => intro e st; simp [runEpochsFrom]
  | succ k ih =>
      intro e st
      rw [runEpochsFrom, ih, runEpoch_events]
      rw [List.range_succ_eq_map, List.flatMap_cons, List.flatMap_map]
      have hsh : ∀ i : Nat, e + 1 + i = e + Nat.succ i := fun i => by omega
      simp [hsh]

/-- Claim C8: `LocalTrainer.train` on a task with `N` epochs and both a
`train` and a `test` dataset executes its phases strictly sequentially: for
each epoch `i` a train phase runs to completion, then the checkpoint hook
saves, then the test phase for that epoch runs — `N` of each, in that
interleaved order. -/
theorem train_sequential_phase_order (task : ClassificationTask)
    (g : String → Param → Param) (fs0 : FileSystem)
    (hp : task.phase_types = ["train", "test"]) :
    (LocalTrainer.train task g fs0).events
      = (List.range task.num_epochs).flatMap epochEvents := by
  unfold LocalTrainer.train
  rw [hp, runEpochsFrom_events]
  simp

/-- Witness for C8 at the notebook's concrete setup: the 4-epoch pretraining
task produces exactly 4 train phases, 4 checkpoint saves and 4 test phases,
interleaved in that order. -/
theorem train_sequential_phase_order_witness :
    (LocalTrainer.train pretrainTask unitStep []).events
      = [TrainEvent.trainPhase 0, TrainEvent.checkpointSave 0, TrainEvent.testPhase 0,
         TrainEvent.trainPhase 1, TrainEvent.checkpointSave 1, TrainEvent.testPhase 1,
         TrainEvent.trainPhase 2, TrainEvent.checkpointSave 2, TrainEvent.testPhase 2,
         TrainEvent.trainPhase 3, TrainEvent.checkpointSave 3, TrainEvent.testPhase 3] :=
  (train_sequential_phase_order pretrainTask unitStep [] rfl).trans (by decide)

theorem onlyHeadsDiffer_refl (m : ClassyModel) : onlyHeadsDiffer m m :=
  ⟨rfl, rfl, rfl⟩

theorem onlyHeadsDiffer_trans {m0 m1 m2 : ClassyModel}
    (h01 : onlyHeadsDiffer m0 m1) (h12 : onlyHeadsDiffer m1 m2) :
    onlyHeadsDiffer m0 m2 :=
  ⟨h12.1.trans h01.1, h12.2.1.trans h01.2.1, h12.2.2.trans h01.2.2⟩

theorem onlyHeadsDiffer_eq {m0 m : ClassyModel} (h : onlyHeadsDiffer m0 m) :
    m = { m0 with state := { m0.state with headParams := m.state.headParams } } := by
  obtain ⟨h1, h2, h3⟩ := h
  obtain ⟨tr, hs, tp, hp⟩ := m
  obtain ⟨tr0, hs0, tp0, hp0⟩ := m0
  simp_all

theorem onlyHeadsDiffer_runPhase (g : String → Param → Param) (dir : String)
    (e : Nat) (pt : String) (st : TrainState) :
    onlyHeadsDiffer st.model (runPhase true g dir e pt st).model := by
  by_cases h : pt = "train"
  · subst h
    simp [runPhase, onlyHeadsDiffer, trainPhaseUpdate]
  · simp [runPhase, h, onlyHeadsDiffer]

theorem onlyHeadsDiffer_runEpoch (g : String → Param → Param) (dir : String) (e : Nat) :
    ∀ (pts : List String) (st : TrainState),
      onlyHeadsDiffer st.model (runEpoch true g dir pts e st).model
  | [], _ => onlyHeadsDiffer_refl _
  | pt :: pts, st =>
      onlyHeadsDiffer_trans (onlyHeadsDiffer_runPhase g dir e pt st)
        (onlyHeadsDiffer_runEpoch g dir e pts (runPhase true g dir e pt st))

theorem onlyHeadsDiffer_runEpochsFrom (g : String → Param → Param) (dir : String)
    (pts : List String) :
    ∀ (n e : Nat) (st : TrainState),
      onlyHeadsDiffer st.model (runEpochsFrom true g dir pts n e st).model
  | 0, _, _ => onlyHeadsDiffer_refl _
  | Nat.succ n, e, st =>
      onlyHeadsDiffer_trans (onlyHeadsDiffer_runEpoch g dir e pts st)
        (onlyHeadsDiffer_runEpochsFrom g dir pts n (e + 1) (runEpoch true g dir pts e st))

/-- Claim C5: when a fine-tuning task has the trunk frozen, running the
trainer on it leaves every trunk parameter unchanged from its value at the
start of training (just after the pretrained state is loaded); only the head
parameters are updated by the optimizer. -/
theorem freeze_trunk_frames (t : FineTuningTask) (g : String → Param → Param)
    (fs0 : FileSystem) (m0 : ClassyModel)
    (hf : t.freeze_trunk = true)
    (hm : t.loadPretrainedState t.model = Except.ok m0) :
    ∃ st, LocalTrainer.trainFineTuning t g fs0 = Except.ok st ∧
      st.model = { m0 with state := { m0.state with
        headParams := st.model.state.headParams } } := by
  have hrun : LocalTrainer.trainFineTuning t g fs0
      = Except.ok (runEpochsFrom t.freeze_trunk g t.checkpoint_dir t.phase_types
          t.num_epochs 0 { model := m0, optimState := 0, fs := fs0, events := [] }) := by
    unfold LocalTrainer.trainFineTuning
    rw [hm]
    rfl
  refine ⟨_, hrun, ?_⟩
  rw [hf]
  exact onlyHeadsDiffer_eq (onlyHeadsDiffer_runEpochsFrom g t.checkpoint_dir t.phase_types
    t.num_epochs 0 { model := m0, optimState := 0, fs := fs0, events := [] })

/-- Witness for C5 at the notebook's concrete setup: training the frozen
fine-tuning task succeeds and its final model differs from the start-of-
training model at most in the head parameters. -/
theorem freeze_trunk_frames_witness :
    ∃ st, LocalTrainer.trainFineTuning fineTuningTask unitStep [] = Except.ok st ∧
      st.model = { fineTuningStartModel with state := { fineTuningStartModel.state with
        headParams := st.model.state.headParams } } :=
  freeze_trunk_frames fineTuningTask unitStep [] fineTuningStartModel rfl rfl

/-- Claim C10: with `reset_heads` set, loading the pretrained checkpoint
restores only the trunk state; the head parameters keep their fresh
initialization (they are not loaded from the checkpoint), and the load
succeeds regardless of the checkpointed head state — in particular even when
the checkpointed head had a different number of classes than the new
head. -/
theorem reset_heads_restores_only_trunk (t : FineTuningTask) (c : Checkpoint)
    (tp : List (String × Param))
    (hr : t.reset_heads = true)
    (hc : t.pretrained_checkpoint = some c)
    (ht : loadParams c.modelState.trunkParams t.model.state.trunkParams = Except.ok tp) :
    t.loadPretrainedState t.model
      = Except.ok { t.model with
                    state := { trunkParams := tp
                               headParams := t.model.state.headParams } } := by
  unfold FineTuningTask.loadPretrainedState
  rw [hc]
  simp only [ht, hr]
  rfl

/-- Witness for C10 at the notebook's concrete setup: the checkpointed head
has 1000 classes (weight shape `1000 × 2048`) while the fine-tuning head has
2 classes (weight shape `2 × 2048`), yet with `reset_heads` the model state
load succeeds, the trunk weights come from the checkpoint, and the head
keeps its fresh initialization. -/
theorem reset_heads_restores_only_trunk_witness :
    fineTuningTask.loadPretrainedState fineTuningTask.model
      = Except.ok { fineTuningTask.model with
                    state := { trunkParams :=
                                 [("conv1.weight", { shape := [64, 3, 7, 7], value := 5 })]
                               headParams := fineTuningTask.model.state.headParams } } :=
  reset_heads_restores_only_trunk fineTuningTask pretrainCheckpoint
    [("conv1.weight", { shape := [64, 3, 7, 7], value := 5 })] rfl rfl rfl
